import Mathlib

/-!
Shallow embedding of the Vulkan bootstrap in `src/base/mod.rs` and
`src/base/constants/mod.rs` of `vulkan-testing-2`.

Machine integers are modelled as `Nat`; the Vulkan bitmask types
(`DebugUtilsMessageSeverityFlagsEXT`, `QueueFlags`) are `Nat` bitmasks, with
the vulkanalia derived ordering on flags being the numeric order on the raw
bits and `contains` being the bitwise test `(bits &&& other) == other`.
Fallible operations return `Except`; the platform/driver boundary (layer
enumeration, instance creation, messenger creation, device enumeration) is
modelled by a `Platform` record of oracle answers, and the calls made across
that boundary are recorded in an explicit trace.
-/

namespace VkTesting

/-! ### Constants (src/base/constants/mod.rs and the vulkanalia identifiers) -/

/-- Constant `VALIDATION_LAYER: ExtensionName = from_bytes(b"VK_LAYER_KHRONOS_validation")`. -/
def VALIDATION_LAYER : String := "VK_LAYER_KHRONOS_validation"

/-- Name of `vk::EXT_DEBUG_UTILS_EXTENSION`. -/
def DEBUG_UTILS_EXT : String := "VK_EXT_debug_utils"

/-- Name of `vk::KHR_GET_PHYSICAL_DEVICE_PROPERTIES2_EXTENSION`. -/
def PROPERTIES2_EXT : String := "VK_KHR_get_physical_device_properties2"

/-- Name of `vk::KHR_PORTABILITY_ENUMERATION_EXTENSION`. -/
def PORTABILITY_ENUM_EXT : String := "VK_KHR_portability_enumeration"

/-- Bit `vk::DebugUtilsMessageSeverityFlagsEXT::VERBOSE` = 0x1. -/
def SEVERITY_VERBOSE : Nat := 1

/-- Bit `vk::DebugUtilsMessageSeverityFlagsEXT::INFO` = 0x10. -/
def SEVERITY_INFO : Nat := 16

/-- Bit `vk::DebugUtilsMessageSeverityFlagsEXT::WARNING` = 0x100. -/
def SEVERITY_WARNING : Nat := 256

/-- Bit `vk::DebugUtilsMessageSeverityFlagsEXT::ERROR` = 0x1000. -/
def SEVERITY_ERROR : Nat := 4096

/-- Bit `vk::QueueFlags::GRAPHICS` = 0x1. -/
def QUEUE_GRAPHICS : Nat := 1

/-! ### Log levels of the `log` crate -/

/-- The five levels of the `log` crate, one per macro used by the code
(`error!`, `warn!`, `info!`, `debug!`, `trace!`). -/
inductive LogLevel
  | error
  | warn
  | info
  | debug
  | trace
deriving DecidableEq, Repr

/-! ### Debug Message Router (`debug_callback`, src/base/mod.rs lines 185-205) -/

/-- The fields of `vk::DebugUtilsMessengerCallbackDataEXT` the callback reads. -/
structure CallbackData where
  message : String
deriving DecidableEq, Repr

/-- The `"({:?}) {}"` format used for every emitted line. -/
def format_line (type_ : Nat) (message : String) : String :=
  "(" ++ toString type_ ++ ") " ++ message

/-- Embedding of `debug_callback`: the first component is the (level, line)
pair handed to the logger, the second is the returned `vk::Bool32`
(`vk::FALSE`, modelled as `false`). Severity comparison `>=` on
`DebugUtilsMessageSeverityFlagsEXT` is the numeric order on the raw bits. -/
def debug_callback (severity : Nat) (type_ : Nat) (data : CallbackData) :
    (LogLevel × String) × Bool :=
  let message := data.message
  let line :=
    if SEVERITY_ERROR ≤ severity then
      (LogLevel.error, format_line type_ message)
    else if SEVERITY_WARNING ≤ severity then
      (LogLevel.warn, format_line type_ message)
    else if SEVERITY_INFO ≤ severity then
      (LogLevel.debug, format_line type_ message)
    else
      (LogLevel.trace, format_line type_ message)
  (line, false)

/-! ### Queue family data (src/base/mod.rs lines 207-239) -/

/-- The one field of `vk::QueueFamilyProperties` the code reads. -/
structure QueueFamilyProperties where
  queue_flags : Nat
deriving DecidableEq, Repr

/-- Test `flags.contains(bit)` on a Vulkan bitmask: `(flags &&& bit) == bit`. -/
def flagsContain (flags bit : Nat) : Bool :=
  flags &&& bit == bit

/-- Embedding of `Iterator::position`: index of the first element satisfying `p`. -/
def position {α : Type} (p : α → Bool) : List α → Option Nat
  | [] => none
  | a :: rest => if p a then some 0 else (position p rest).map (fun i => i + 1)

/-- Embedding of `struct QueueFamilyIndices { graphics: u32 }`. -/
structure QueueFamilyIndices where
  graphics : Nat
deriving DecidableEq, Repr

/-- Embedding of `struct SuitabilityError(pub &'static str)`. -/
structure SuitabilityError where
  missing : String
deriving DecidableEq, Repr

/-- The `#[error("Missing {0}.")]` display implementation. -/
def SuitabilityError.display (e : SuitabilityError) : String :=
  "Missing " ++ e.missing ++ "."

/-- Embedding of `QueueFamilyIndices::get`, as a function of the device's
queue family property list: position of the first graphics-capable family,
or `SuitabilityError("Missing required queue families.")`. -/
def QueueFamilyIndices.get (properties : List QueueFamilyProperties) :
    Except SuitabilityError QueueFamilyIndices :=
  match position (fun p => flagsContain p.queue_flags QUEUE_GRAPHICS) properties with
  | some i => Except.ok ⟨i⟩
  | none => Except.error ⟨"Missing required queue families."⟩

/-! ### Device Selector (src/base/mod.rs lines 161-182) -/

/-- A physical device as the selector observes it: its reported name and its
queue family properties. -/
structure PhysicalDevice where
  device_name : String
  queue_families : List QueueFamilyProperties
deriving DecidableEq, Repr

/-- Embedding of `check_physical_device`: run `QueueFamilyIndices::get` and
discard the indices. -/
def check_physical_device (d : PhysicalDevice) : Except SuitabilityError Unit :=
  match QueueFamilyIndices.get d.queue_families with
  | Except.ok _ => Except.ok ()
  | Except.error e => Except.error e

/-- Embedding of `choose_physical_device`: walk the enumerated devices in
order, log a warning and continue on a failed suitability check, return the
first device that passes, and fail when none does. The first component is
the emitted log, in order. -/
def choose_physical_device (devices : List PhysicalDevice) :
    List (LogLevel × String) × Except String PhysicalDevice :=
  match devices with
  | [] => ([], Except.error "Failed to find suitable physical device.")
  | d :: rest =>
    match check_physical_device d with
    | Except.error e =>
      let r := choose_physical_device rest
      ((LogLevel.warn,
          "Skipping physical device (" ++ d.device_name ++ "): " ++ e.display) :: r.1,
        r.2)
    | Except.ok _ =>
      ([(LogLevel.info, "Selected physical device (" ++ d.device_name ++ ")")],
        Except.ok d)

/-! ### The platform/driver boundary (vulkanalia `Entry`/`Instance` calls) -/

/-- Oracle answers of the platform for one bootstrap run: whether each
fallible external step succeeds, what the layer enumeration reports, the
windowing-supplied required extensions, whether the macOS portability branch
is taken (`cfg!(target_os = "macos") && entry.version()? >= PORTABILITY_MACOS_VERSION`),
and the enumerated physical devices. -/
structure Platform where
  loader_ok : Bool
  entry_ok : Bool
  layer_enum_ok : Bool
  available_layers : List String
  window_extensions : List String
  portability : Bool
  create_instance_ok : Bool
  create_messenger_ok : Bool
  device_enum_ok : Bool
  devices : List PhysicalDevice
deriving DecidableEq, Repr

/-- Calls made across the platform/driver boundary, in order. -/
inductive PlatformCall
  | enumerateLayers
  | createInstanceCall (layers extensions : List String)
  | createDebugMessenger
  | enumeratePhysicalDevices
  | destroyDebugMessenger
  | destroyInstance
deriving DecidableEq, Repr

/-- Handles the bootstrap can allocate. -/
inductive Handle
  | instanceHandle
  | messengerHandle
deriving DecidableEq, Repr

/-- Outcome of a creation step: the platform calls it made, the handles it
allocated, the handles it released before returning, and its result. -/
structure StepResult (α : Type) where
  calls : List PlatformCall
  allocated : List Handle
  released : List Handle
  result : Except String α
deriving Repr

/-! ### Extension/Layer Composer (src/base/mod.rs lines 101-126) -/

/-- Lines 101-105: `[VALIDATION_LAYER]` when validation is enabled, else empty. -/
def composedLayers (validationEnabled : Bool) : List String :=
  if validationEnabled then [VALIDATION_LAYER] else []

/-- Lines 108-126: windowing-required extensions, then (when the portability
branch is taken) the two portability extensions, then (when validation is
enabled) the debug-utilities extension. -/
def composedExtensions (validationEnabled portability : Bool)
    (windowExtensions : List String) : List String :=
  (windowExtensions ++
      (if portability then [PROPERTIES2_EXT, PORTABILITY_ENUM_EXT] else [])) ++
    (if validationEnabled then [DEBUG_UTILS_EXT] else [])

/-! ### Instance Bootstrapper (`create_instance`, src/base/mod.rs lines 79-154) -/

/-- Embedding of `create_instance`, parametrised by the compile-time
`VALIDATION_ENABLED` flag and the platform oracle. The value on success is
the `Option` debug-messenger handle (the instance handle is implicit in
`allocated`). Faithful to the source order: enumerate layers, check the
validation layer's availability, compose layers and extensions, create the
instance, then (validation only) create the debug messenger. -/
def create_instance (validationEnabled : Bool) (p : Platform) :
    StepResult (Option Handle) :=
  if p.layer_enum_ok = false then
    { calls := [PlatformCall.enumerateLayers], allocated := [], released := [],
      result := Except.error "enumerate_instance_layer_properties failed" }
  else if validationEnabled && !(p.available_layers.contains VALIDATION_LAYER) then
    { calls := [PlatformCall.enumerateLayers], allocated := [], released := [],
      result := Except.error "Validation layer requested but not supported." }
  else
    let layers := composedLayers validationEnabled
    let extensions :=
      composedExtensions validationEnabled p.portability p.window_extensions
    if p.create_instance_ok = false then
      { calls := [PlatformCall.enumerateLayers,
          PlatformCall.createInstanceCall layers extensions],
        allocated := [], released := [],
        result := Except.error "create_instance failed" }
    else if validationEnabled && !p.create_messenger_ok then
      { calls := [PlatformCall.enumerateLayers,
          PlatformCall.createInstanceCall layers extensions,
          PlatformCall.createDebugMessenger],
        allocated := [Handle.instanceHandle], released := [],
        result := Except.error "create_debug_utils_messenger_ext failed" }
    else
      { calls := [PlatformCall.enumerateLayers,
          PlatformCall.createInstanceCall layers extensions] ++
          (if validationEnabled then [PlatformCall.createDebugMessenger] else []),
        allocated := [Handle.instanceHandle] ++
          (if validationEnabled then [Handle.messengerHandle] else []),
        released := [],
        result := Except.ok
          (if validationEnabled then some Handle.messengerHandle else none) }

/-! ### Application Facade (`App`, src/base/mod.rs lines 35-73) -/

/-- Embedding of `struct App { entry, instance, debug_messenger, phys_device }`. -/
structure App where
  entry : Unit
  «instance» : Handle
  debug_messenger : Option Handle
  phys_device : PhysicalDevice
deriving DecidableEq, Repr

/-- Embedding of `App::create`: loader, entry, `create_instance`, then
`choose_physical_device`; each `?` propagates the error. -/
def App.create (validationEnabled : Bool) (p : Platform) : StepResult App :=
  if p.loader_ok = false then
    { calls := [], allocated := [], released := [],
      result := Except.error "LibloadingLoader::new failed" }
  else if p.entry_ok = false then
    { calls := [], allocated := [], released := [],
      result := Except.error "Entry::new failed" }
  else
    let ci := create_instance validationEnabled p
    match ci.result with
    | Except.error e =>
      { calls := ci.calls, allocated := ci.allocated, released := ci.released,
        result := Except.error e }
    | Except.ok debug_messenger =>
      if p.device_enum_ok = false then
        { calls := ci.calls ++ [PlatformCall.enumeratePhysicalDevices],
          allocated := ci.allocated, released := ci.released,
          result := Except.error "enumerate_physical_devices failed" }
      else
        match (choose_physical_device p.devices).2 with
        | Except.error e =>
          { calls := ci.calls ++ [PlatformCall.enumeratePhysicalDevices],
            allocated := ci.allocated, released := ci.released,
            result := Except.error e }
        | Except.ok d =>
          { calls := ci.calls ++ [PlatformCall.enumeratePhysicalDevices],
            allocated := ci.allocated, released := ci.released,
            result := Except.ok
              { entry := (), «instance» := Handle.instanceHandle,
                debug_messenger := debug_messenger, phys_device := d } }

/-- Embedding of `App::destroy`: destroy the debug messenger when one is
held, then destroy the instance. The method performs no field assignment, so
the post-state is the receiver itself; the second component is the ordered
teardown calls made across the platform boundary. -/
def App.destroy (a : App) : App × List PlatformCall :=
  (a,
    (match a.debug_messenger with
      | some _ => [PlatformCall.destroyDebugMessenger]
      | none => []) ++ [PlatformCall.destroyInstance])

/-- Embedding of `App::render`: a no-op returning `Ok(())`. -/
def App.render (a : App) : App × Except String Unit :=
  (a, Except.ok ())

/-! ### Derived notions and concrete fixtures used by the statements -/

/-- A device passes the suitability check when `check_physical_device`
returns `Ok`. -/
def deviceSuitable (d : PhysicalDevice) : Bool :=
  match check_physical_device d with
  | Except.ok _ => true
  | Except.error _ => false

/-- The warning line `choose_physical_device` emits for a rejected device. -/
def rejectLogLine (d : PhysicalDevice) : LogLevel × String :=
  (LogLevel.warn,
    "Skipping physical device (" ++ d.device_name ++ "): " ++
      SuitabilityError.display ⟨"Missing required queue families."⟩)

/-- The info line `choose_physical_device` emits for the selected device. -/
def selectLogLine (d : PhysicalDevice) : LogLevel × String :=
  (LogLevel.info, "Selected physical device (" ++ d.device_name ++ ")")

/-- A physical device with one graphics-capable queue family. -/
def gpu0 : PhysicalDevice :=
  { device_name := "gpu0", queue_families := [{ queue_flags := 1 }] }

/-- A platform whose layer enumeration reports no layers at all. -/
def emptyLayersPlatform : Platform :=
  { loader_ok := true, entry_ok := true, layer_enum_ok := true,
    available_layers := [], window_extensions := ["surface_ext"],
    portability := false, create_instance_ok := true,
    create_messenger_ok := true, device_enum_ok := true, devices := [] }

/-- A platform that offers the validation layer but enumerates no physical
device. -/
def noDevicePlatform : Platform :=
  { emptyLayersPlatform with available_layers := [VALIDATION_LAYER] }

/-- A platform on which every bootstrap step succeeds. -/
def okPlatform : Platform :=
  { noDevicePlatform with devices := [gpu0] }

/-- The facade produced by a fully successful validation-enabled bootstrap. -/
def okApp : App :=
  { entry := (), «instance» := Handle.instanceHandle,
    debug_messenger := some Handle.messengerHandle, phys_device := gpu0 }

/-! ### Theorems -/

/-- Helper: `position` finds no index exactly when no element satisfies the
predicate. -/
theorem position_eq_none_iff {α : Type} (p : α → Bool) (l : List α) :
    position p l = none ↔ ∀ x ∈ l, p x = false := by
  induction l with
  | nil => simp [position]
  | cons a rest ih =>
    cases h : p a with
    | true => simp [position, h]
    | false => simp [position, h, ih]

/-- Helper: `position` returns `some i` exactly when the element at `i` satisfies
the predicate and every earlier element fails it. -/
theorem position_eq_some_iff {α : Type} (p : α → Bool) (l : List α) (i : Nat) :
    position p l = some i ↔
      (∃ x, l[i]? = some x ∧ p x = true) ∧ ∀ y ∈ l.take i, p y = false := by
  induction l generalizing i with
  | nil => simp [position]
  | cons a rest ih =>
    cases h : p a with
    | true =>
      cases i with
      | zero => simp [position, h]
      | succ k => simp [position, h, List.take_succ_cons]
    | false =>
      cases i with
      | zero => simp [position, h, Option.map_eq_some']
      | succ k => simp [position, h, List.take_succ_cons, ih, Option.map_eq_some']

/-- C3: the suitability derivation fails with the missing-required-queue-family
error exactly when no queue family of the device has the graphics capability
bit, and it succeeds with index `i` exactly when family `i` is
graphics-capable and every family before it is not (the lowest-indexed
match). -/
theorem C3_queue_family_check (properties : List QueueFamilyProperties) :
    (QueueFamilyIndices.get properties =
        Except.error ⟨"Missing required queue families."⟩ ↔
      ∀ q ∈ properties, flagsContain q.queue_flags QUEUE_GRAPHICS = false) ∧
    ∀ i : Nat,
      (QueueFamilyIndices.get properties = Except.ok ⟨i⟩ ↔
        (∃ q, properties[i]? = some q ∧
            flagsContain q.queue_flags QUEUE_GRAPHICS = true) ∧
          ∀ q ∈ properties.take i,
            flagsContain q.queue_flags QUEUE_GRAPHICS = false) := by
  constructor
  · rw [← position_eq_none_iff (fun q => flagsContain q.queue_flags QUEUE_GRAPHICS)
      properties]
    unfold QueueFamilyIndices.get
    cases hp : position (fun q => flagsContain q.queue_flags QUEUE_GRAPHICS)
      properties <;> simp
  · intro i
    rw [← position_eq_some_iff (fun q => flagsContain q.queue_flags QUEUE_GRAPHICS)
      properties i]
    unfold QueueFamilyIndices.get
    cases hp : position (fun q => flagsContain q.queue_flags QUEUE_GRAPHICS)
      properties <;> simp

/-- The suitability check is `Ok` or the one canonical rejection, according
to `deviceSuitable`. -/
theorem check_physical_device_eq (d : PhysicalDevice) :
    check_physical_device d =
      if deviceSuitable d = true then Except.ok ()
      else Except.error ⟨"Missing required queue families."⟩ := by
  unfold deviceSuitable
  cases hc : check_physical_device d with
  | ok u => simp
  | error e =>
    simp only []
    unfold check_physical_device QueueFamilyIndices.get at hc
    cases hp : position (fun q => flagsContain q.queue_flags QUEUE_GRAPHICS)
      d.queue_families <;> rw [hp] at hc <;> simp_all

/-- C2: the device selector returns the first device passing the suitability
check, logging exactly one warning line (device name and rejection reason)
for each failing candidate before it; when no device passes, the log warns
about every candidate and the selector fails with the no-suitable-device
error. -/
theorem C2_device_selector (devices : List PhysicalDevice) :
    choose_physical_device devices =
      match devices.find? deviceSuitable with
      | some d =>
        ((devices.takeWhile (fun x => !deviceSuitable x)).map rejectLogLine ++
            [selectLogLine d],
          Except.ok d)
      | none =>
        (devices.map rejectLogLine,
          Except.error "Failed to find suitable physical device.") := by
  induction devices with
  | nil => rfl
  | cons d rest ih =>
    cases hs : deviceSuitable d with
    | true =>
      have hc : check_physical_device d = Except.ok () := by
        rw [check_physical_device_eq, hs]
        rfl
      simp [choose_physical_device, hc, List.find?_cons_of_pos _ hs, hs,
        selectLogLine, List.takeWhile_cons_of_neg]
    | false =>
      have hc : check_physical_device d =
          Except.error ⟨"Missing required queue families."⟩ := by
        rw [check_physical_device_eq, hs]
        rfl
      have hnp : ¬ deviceSuitable d = true := by simp [hs]
      cases hf : rest.find? deviceSuitable with
      | some d2 =>
        simp [choose_physical_device, hc, List.find?_cons_of_neg _ hnp, hf,
          List.takeWhile_cons_of_pos, hs, ih, rejectLogLine,
          SuitabilityError.display]
      | none =>
        simp [choose_physical_device, hc, List.find?_cons_of_neg _ hnp, hf,
          List.takeWhile_cons_of_pos, hs, ih, rejectLogLine,
          SuitabilityError.display]

/-- A bootstrap run never issues a release call: `App::create` has no
rollback path. -/
theorem create_released_nil (validationEnabled : Bool) (p : Platform) :
    (App.create validationEnabled p).released = [] ∧
    (create_instance validationEnabled p).released = [] := by
  by_cases hal : p.available_layers.contains VALIDATION_LAYER
  all_goals
    cases hlo : p.loader_ok <;> cases heo : p.entry_ok <;>
      cases hle : p.layer_enum_ok <;> cases hci : p.create_instance_ok <;>
        cases hcm : p.create_messenger_ok <;> cases hde : p.device_enum_ok <;>
          cases validationEnabled <;>
            simp_all [App.create, create_instance] <;>
              cases hch : (choose_physical_device p.devices).2 <;> simp [hch]

/-- On success, `create_instance` hands back a messenger exactly when
validation is enabled. -/
theorem create_instance_messenger (validationEnabled : Bool) (p : Platform)
    (m : Option Handle)
    (h : (create_instance validationEnabled p).result = Except.ok m) :
    m.isSome = validationEnabled := by
  by_cases hal : p.available_layers.contains VALIDATION_LAYER
  all_goals
    cases hle : p.layer_enum_ok <;> cases hci : p.create_instance_ok <;>
      cases hcm : p.create_messenger_ok <;> cases validationEnabled <;>
        simp_all [create_instance]
  all_goals exact h ▸ rfl

/-- C1 counterexample: at severity `INFO` the router emits at the `debug`
level of the `log` crate, not at the `info` level the claim states. -/
theorem C1_counterexample :
    (debug_callback SEVERITY_INFO 0 ⟨"m"⟩).1.1 ≠ LogLevel.info ∧
    (debug_callback SEVERITY_INFO 0 ⟨"m"⟩).1.1 = LogLevel.debug := by
  constructor <;> decide

/-- C1 (amended): the level emitted by the debug message router is determined
solely by a descending threshold check on the severity — error-or-above at
error level, else warning-or-above at warning level, else info-or-above at
DEBUG level, else at trace level — and is independent of the category flags
and of the message content. -/
theorem C1_router_level (severity type1 type2 : Nat) (d1 d2 : CallbackData) :
    ((debug_callback severity type1 d1).1.1 =
      if SEVERITY_ERROR ≤ severity then LogLevel.error
      else if SEVERITY_WARNING ≤ severity then LogLevel.warn
      else if SEVERITY_INFO ≤ severity then LogLevel.debug
      else LogLevel.trace) ∧
    (debug_callback severity type1 d1).1.1 =
      (debug_callback severity type2 d2).1.1 := by
  refine ⟨?_, ?_⟩ <;>
    (by_cases hA : SEVERITY_ERROR ≤ severity <;>
      by_cases hB : SEVERITY_WARNING ≤ severity <;>
        by_cases hC : SEVERITY_INFO ≤ severity <;>
          simp [debug_callback, hA, hB, hC])

/-- C9: the debug message router always returns `vk::FALSE`, the
do-not-abort sentinel, for every severity, category and message payload. -/
theorem C9_returns_false (severity type_ : Nat) (data : CallbackData) :
    (debug_callback severity type_ data).2 = false := rfl

/-- C6: with validation enabled the composed layer list is exactly the
singleton validation layer (and empty when disabled), and off the
portability branch the composed extension list is exactly the
windowing-supplied extensions followed by the debug-utilities extension; in
particular `["surface_ext"]` composes to `["surface_ext", DEBUG_UTILS_EXT]`
with layers `[VALIDATION_LAYER]`. -/
theorem C6_composition (windowExtensions : List String) :
    composedLayers true = [VALIDATION_LAYER] ∧
    composedLayers false = [] ∧
    composedExtensions true false windowExtensions =
      windowExtensions ++ [DEBUG_UTILS_EXT] ∧
    composedExtensions true false ["surface_ext"] =
      ["surface_ext", DEBUG_UTILS_EXT] := by
  refine ⟨rfl, rfl, ?_, rfl⟩
  simp [composedExtensions]

/-- C7: on a facade holding a debug messenger, destroy releases the debug
messenger strictly before destroying the instance — the teardown trace is
exactly messenger destruction followed by instance destruction. -/
theorem C7_destroy_order (a : App) (m : Handle)
    (h : a.debug_messenger = some m) :
    (App.destroy a).2 =
      [PlatformCall.destroyDebugMessenger, PlatformCall.destroyInstance] := by
  simp [App.destroy, h]

/-- C7 witness: the ordered teardown of a concrete facade holding a
messenger. -/
theorem C7_witness :
    (App.destroy okApp).2 =
      [PlatformCall.destroyDebugMessenger, PlatformCall.destroyInstance] :=
  C7_destroy_order okApp Handle.messengerHandle rfl

/-- C4 counterexample: with validation enabled and an empty availability
set, create does fail with the missing-layer error and allocates nothing,
but a platform call — the layer enumeration — has already been made when the
failure occurs, so the failure does not precede every platform call. -/
theorem C4_counterexample :
    (App.create true emptyLayersPlatform).result =
        Except.error "Validation layer requested but not supported." ∧
    (App.create true emptyLayersPlatform).calls =
      [PlatformCall.enumerateLayers] ∧
    (App.create true emptyLayersPlatform).calls ≠ [] := by
  refine ⟨rfl, rfl, by decide⟩

/-- C4 (amended): with validation statically enabled and the validation
layer absent from the availability set, create fails with the
missing-required-capability error and creates no handle; the failure occurs
after the layer-enumeration platform call but before any creation platform
call — the trace is exactly the layer enumeration. -/
theorem C4_missing_validation_layer (p : Platform)
    (hl : p.loader_ok = true) (he : p.entry_ok = true)
    (hle : p.layer_enum_ok = true)
    (hav : p.available_layers.contains VALIDATION_LAYER = false) :
    (App.create true p).result =
        Except.error "Validation layer requested but not supported." ∧
    (App.create true p).allocated = [] ∧
    (App.create true p).calls = [PlatformCall.enumerateLayers] := by
  have hav2 : ¬ VALIDATION_LAYER ∈ p.available_layers := by
    simpa using hav
  simp [App.create, create_instance, hl, he, hle, hav2]

/-- C4 witness: the amended statement at the concrete empty availability
set. -/
theorem C4_witness :
    (App.create true emptyLayersPlatform).result =
        Except.error "Validation layer requested but not supported." ∧
    (App.create true emptyLayersPlatform).allocated = [] ∧
    (App.create true emptyLayersPlatform).calls =
      [PlatformCall.enumerateLayers] :=
  C4_missing_validation_layer emptyLayersPlatform rfl rfl rfl rfl

/-- C5 counterexample: on a platform where instance and messenger creation
succeed but no physical device is enumerated, create returns the
no-suitable-device error while the instance handle allocated by the earlier
step is still held and no release call was made — the allocated handle is
not cleaned up before the error is returned. -/
theorem C5_counterexample :
    (App.create true noDevicePlatform).result =
        Except.error "Failed to find suitable physical device." ∧
    Handle.instanceHandle ∈ (App.create true noDevicePlatform).allocated ∧
    (App.create true noDevicePlatform).released = [] := by
  refine ⟨rfl, by decide, rfl⟩

/-- C5 (amended): when any step of the create chain fails, create returns
the error and no facade value is produced, but handles allocated by earlier
successful steps are not cleaned up: no release call is made before the
error is returned (failures are process-fatal, with no cross-step
rollback). -/
theorem C5_failure_no_cleanup (validationEnabled : Bool) (p : Platform)
    (e : String)
    (h : (App.create validationEnabled p).result = Except.error e) :
    (∀ a : App, (App.create validationEnabled p).result ≠ Except.ok a) ∧
    (App.create validationEnabled p).released = [] := by
  refine ⟨fun a ha => ?_, (create_released_nil validationEnabled p).1⟩
  rw [h] at ha
  exact Except.noConfusion ha

/-- C5 witness: the amended statement at the concrete no-device platform. -/
theorem C5_witness :
    (∀ a : App, (App.create true noDevicePlatform).result ≠ Except.ok a) ∧
    (App.create true noDevicePlatform).released = [] :=
  C5_failure_no_cleanup true noDevicePlatform
    "Failed to find suitable physical device." rfl

/-- C8: on every successful create the facade holds a debug messenger
exactly when validation instrumentation was statically enabled; with it
disabled the field is `none`. -/
theorem C8_messenger_iff_validation (validationEnabled : Bool) (p : Platform)
    (a : App) (h : (App.create validationEnabled p).result = Except.ok a) :
    a.debug_messenger.isSome = validationEnabled := by
  cases hlo : p.loader_ok <;> cases heo : p.entry_ok <;>
    cases hde : p.device_enum_ok <;>
      cases hci : (create_instance validationEnabled p).result <;>
        cases hch : (choose_physical_device p.devices).2 <;>
          simp_all [App.create]
  all_goals
    have hm := create_instance_messenger validationEnabled p _ hci
    subst h
    exact hm

/-- C8 witness: a fully successful validation-enabled bootstrap yields the
concrete facade holding a messenger. -/
theorem C8_witness : okApp.debug_messenger.isSome = true :=
  C8_messenger_iff_validation true okPlatform okApp (by rfl)

/-- C10: destroy mutates no field of the `App` struct — the post-state keeps
the pre-destroy `entry`, `instance`, `debug_messenger` (not reset to `none`)
and `phys_device` — so a second destroy issues exactly the same release
calls again. -/
theorem C10_destroy_frame (a : App) :
    ((App.destroy a).1.entry = a.entry ∧
      (App.destroy a).1.«instance» = a.«instance» ∧
      (App.destroy a).1.debug_messenger = a.debug_messenger ∧
      (App.destroy a).1.phys_device = a.phys_device) ∧
    App.destroy (App.destroy a).1 = App.destroy a :=
  ⟨⟨rfl, rfl, rfl, rfl⟩, rfl⟩

end VkTesting
